import Mathlib

/-!
Shallow embedding of the booking core of `src/main.py` (a Telegram
appointment-scheduling bot): the time normalizer `formatar_horario`, the
booking ledger operation `verificar_agendamento` over the global dict
`agenda`, and the dialogue engine `handle_message` over the per-user
`context.user_data` dict.

Modelling conventions:
- A Python dict with string keys is an insertion-ordered association list
  with unique keys (`Agenda`); insertion of a fresh key appends at the end,
  exactly as CPython dicts preserve insertion order.
- Python exceptions (`ValueError` from `int`, `KeyError` from `d[k]`) are
  `Except Unit`.
- `str.isdigit` is the Unicode digit test; it is modelled on the character
  repertoire exercised here: the ASCII digits (for which `int` succeeds)
  plus the superscript digits `¹ ² ³`, which Python's `isdigit` accepts but
  Python's `int` rejects with `ValueError`.
- `int(s)` on an `isdigit`-true string is modelled by `String.toNat?`,
  which succeeds exactly on the ASCII-decimal strings and fails (`none`,
  i.e. `ValueError`) on the superscript digits.
- `message_text` is the already lower-cased text (`update.message.text.lower()`
  happens in the transport line at the top of `handle_message`); the greeting
  returned by the clock-dependent `saudacao_por_horario` is passed in as a
  parameter `saudacao`.
-/

namespace Bot

/-- A value of the `agenda` dict: `{'cliente': ..., 'servico': ...}`. -/
structure Agendamento where
  cliente : String
  servico : String
deriving DecidableEq, Repr

/-- The global `agenda` dict: insertion-ordered map from time strings to bookings. -/
abbrev Agenda := List (String × Agendamento)

/-- The keys of the ledger, in insertion order. -/
def chaves (a : Agenda) : List String := a.map Prod.fst

/-- Characters accepted by Python's `str.isdigit` among those this development
uses: ASCII digits and the superscript digits (digits for `isdigit`, but
rejected by `int`). -/
def pyIsDigitChar (c : Char) : Bool :=
  c.isDigit || c == '¹' || c == '²' || c == '³'

/-- Python `s.isdigit()` on a character list: nonempty and every character a
digit character. -/
def pyIsdigitL (l : List Char) : Bool :=
  !l.isEmpty && l.all pyIsDigitChar

/-- Python `s.isdigit()`. -/
def pyIsdigit (s : String) : Bool := pyIsdigitL s.data

/-- Python `int(s)` restricted to `isdigit`-true strings: succeeds exactly on
the nonempty all-ASCII-decimal strings, reading them in base 10 (so `"09"`
parses to 9); `none` models the `ValueError` raised on superscript digits
such as `"²"`. -/
def pyIntL (l : List Char) : Option Nat :=
  if !l.isEmpty && l.all Char.isDigit then
    some (l.foldl (fun n c => 10 * n + (c.toNat - 48)) 0)
  else none

/-- Python `int(s)` (on the strings reaching it here: see `pyIntL`). -/
def pyInt (s : String) : Option Nat := pyIntL s.data

/-- Python `s.split(sep)` for a one-character separator, on character lists:
splits at every occurrence, keeping empty parts. -/
def pySplitAux (sep : Char) : List Char → List Char → List (List Char)
  | [], acc => [acc.reverse]
  | c :: rest, acc =>
    if c = sep then acc.reverse :: pySplitAux sep rest []
    else pySplitAux sep rest (c :: acc)

/-- Python `s.split(sep)` for a one-character separator. -/
def pySplit (sep : Char) (l : List Char) : List (List Char) := pySplitAux sep l []

/-- Python's `f"{n:02d}"` for the arguments arising here, which are always at
most two digits wide (`hora ≤ 17`, `minutos ≤ 59` after the range check). -/
def pad2 (n : Nat) : String :=
  String.mk [Char.ofNat (48 + n / 10 % 10), Char.ofNat (48 + n % 10)]

/-- The `elif ':' in message_text:` arm of `formatar_horario` (src/main.py
lines 35-42): split on `':'`, require exactly two numeric parts, range-check
`9 <= hora <= 17 and 0 <= minutos < 60`, and zero-pad the result.
`Except.error` models a `ValueError` escaping from `int`. -/
def formatarColon (message_text : String) : Except Unit (Option String) :=
  if message_text.data.contains ':' then
    match pySplit ':' message_text.data with
    | [p0, p1] =>
      if pyIsdigitL p0 && pyIsdigitL p1 then
        match pyIntL p0, pyIntL p1 with
        | some hora, some minutos =>
          if 9 ≤ hora && hora ≤ 17 && minutos < 60 then
            Except.ok (some (pad2 hora ++ ":" ++ pad2 minutos))
          else Except.ok none
        | _, _ => Except.error ()
      else Except.ok none
    | _ => Except.ok none
  else Except.ok none

/-- `formatar_horario` (src/main.py lines 31-42). The first branch fires when
`message_text.isdigit()` and `9 <= int(message_text) <= 17`; note it returns
`message_text + ':00'` without zero-padding. If `int` raises inside the
condition, the exception escapes (`Except.error`). A digit-only string never
contains `':'`, so a rejected first branch falls through to `return None`
via `formatarColon`. -/
def formatar_horario (message_text : String) : Except Unit (Option String) :=
  if pyIsdigit message_text then
    match pyInt message_text with
    | none => Except.error ()
    | some n =>
      if 9 ≤ n && n ≤ 17 then Except.ok (some (message_text ++ ":00"))
      else formatarColon message_text
  else formatarColon message_text

/-- The deletion loop of `verificar_agendamento` (src/main.py lines 21-23):
delete every entry whose `cliente` equals the given client. -/
def removerCliente (cliente : String) (agenda : Agenda) : Agenda :=
  agenda.filter (fun e => decide (e.2.cliente ≠ cliente))

/-- `verificar_agendamento` (src/main.py lines 20-29): first delete every
entry whose `cliente` equals the given client, then return `False` (conflict)
if the slot key is present, else insert `{cliente, servico}` at the key and
return `True`. -/
def verificar_agendamento (horario cliente servico : String) (agenda : Agenda) :
    Bool × Agenda :=
  let ag1 := removerCliente cliente agenda
  if (ag1.lookup horario).isSome then (false, ag1)
  else (true, ag1 ++ [(horario, { cliente := cliente, servico := servico })])

/-- The `context.user_data` dict of one user's session: only the keys
`'stage'`, `'nome'`, `'servico'` are ever used; `none` models an absent key. -/
structure Session where
  stage : Option String
  nome : Option String
  servico : Option String
deriving DecidableEq, Repr

/-- A fresh (or `.clear()`-ed) `user_data` dict. -/
def Session.empty : Session := ⟨none, none, none⟩

/-- The `servicos` dict of `handle_message` (src/main.py lines 48-52). -/
def servicos : List (String × String) :=
  [("1", "Corte de cabelo"), ("2", "Barba"), ("3", "Corte e Barba")]

/-- One line of the `ver agendamentos` listing (src/main.py line 94);
`Except.error` models the `KeyError` when `detalhes['servico']` is not a
key of `servicos`. -/
def linhaExc (e : String × Agendamento) : Except Unit String :=
  match servicos.lookup e.2.servico with
  | some nomeServ => Except.ok (e.1 ++ ": " ++ e.2.cliente ++ " - " ++ nomeServ)
  | none => Except.error ()

/-- The listing lines, one per ledger entry, in ledger (insertion) order:
the list comprehension of src/main.py line 94 before the `"\n".join`. -/
def linhas : Agenda → Except Unit (List String)
  | [] => Except.ok []
  | e :: t =>
    match linhaExc e, linhas t with
    | Except.ok l, Except.ok ls => Except.ok (l :: ls)
    | _, _ => Except.error ()

/-- Total variant of `linhaExc` (used only to state order properties; on
ledgers whose service codes are all valid it agrees with `linhaExc`). -/
def linha (e : String × Agendamento) : String :=
  e.1 ++ ": " ++ e.2.cliente ++ " - " ++ ((servicos.lookup e.2.servico).getD "")

/-- `handle_message` (src/main.py lines 44-119) as a pure step function:
given the lower-cased message text, the user's session dict, the global
`agenda`, and the current greeting, it returns the new session, the new
ledger, and the replies emitted in order; `Except.error` models an uncaught
Python exception (`ValueError` from `formatar_horario`, `KeyError` from the
unguarded `user_data['nome']` / `user_data['servico']` reads or from the
listing). The branch order is exactly the source's `if`/`elif` chain. -/
def handle_message (message_text : String) (ud : Session) (agenda : Agenda)
    (saudacao : String) : Except Unit (Session × Agenda × List String) :=
  if message_text = "agendar" then
    Except.ok ({ ud with stage := some "nome" }, agenda, ["Qual é o seu nome?"])
  else if message_text = "obrigado" then
    Except.ok ({ ud with stage := some "finalizar" }, agenda,
      ["De nada, deseja mais alguma ajuda?"])
  else if ud.stage = some "nome" then
    Except.ok ({ ud with nome := some message_text, stage := some "servico" }, agenda,
      ["Escolha o número do serviço desejado:\n1. Corte de cabelo\n2. Barba\n3. Corte e Barba"])
  else if ud.stage = some "servico" then
    if message_text ∈ (["1", "2", "3"] : List String) then
      Except.ok ({ ud with servico := some message_text, stage := some "horario" }, agenda,
        ["Digite o horário entre as 09:00 até as 17:00"])
    else
      Except.ok (ud, agenda, ["Opção inválida. Por favor, escolha uma opção válida."])
  else if ud.stage = some "horario" then
    match formatar_horario message_text with
    | Except.error e => Except.error e
    | Except.ok none =>
      Except.ok (ud, agenda,
        ["Formato de horário inválido. O horário de funcionamento é entre as 09:00 até as 17:00"])
    | Except.ok (some horario) =>
      match ud.nome with
      | none => Except.error ()
      | some cliente =>
        match ud.servico with
        | none => Except.error ()
        | some servico =>
          let r := verificar_agendamento horario cliente servico agenda
          if r.1 then
            Except.ok (Session.empty, r.2,
              ["Agendado: " ++ cliente ++ " - " ++ ((servicos.lookup servico).getD "None")
                 ++ " às " ++ horario,
               "Obrigado! Tenha um ótimo dia!"])
          else
            Except.ok (ud, r.2,
              ["O horário " ++ horario ++ " já está ocupado. Por favor, escolha outro horário."])
  else if message_text = "ver agendamentos" then
    if agenda.isEmpty then
      Except.ok (ud, agenda, ["Não há agendamentos em espera."])
    else
      match linhas agenda with
      | Except.ok ls =>
        Except.ok (ud, agenda, ["Agendamentos do dia:\n" ++ String.intercalate "\n" ls])
      | Except.error e => Except.error e
  else if ud.stage = some "finalizar" then
    if message_text = "sim" then
      Except.ok ({ ud with stage := some "opcao" }, agenda,
        ["Digite:\n1. Reagendar\n2. Falar com a recepção\n3. Finalizar"])
    else
      Except.ok (Session.empty, agenda, ["Obrigado! Tenha um ótimo dia!"])
  else if ud.stage = some "opcao" then
    if message_text = "1" then
      Except.ok ({ ud with stage := some "nome" }, agenda, ["Qual é o seu nome?"])
    else if message_text = "2" then
      Except.ok (Session.empty, agenda,
        ["Você está em espera. Um atendente da recepção entrará em contato em breve."])
    else if message_text = "3" then
      Except.ok (Session.empty, agenda, ["Obrigado! Tenha um ótimo dia!"])
    else
      Except.ok (ud, agenda, ["Opção inválida. Por favor, escolha uma opção válida."])
  else
    Except.ok (ud, agenda,
      [saudacao ++ ", tudo bom?\n\nCaso queira agendar um serviço, digite \"agendar\"."])

/-- The (hour, minute) denoted by a ledger key string, read back the way a
human (or the spec's TimeSlot) reads `"H:MM"` / `"HH:MM"`. -/
def slotDenote (key : String) : Option (Nat × Nat) :=
  match pySplit ':' key.data with
  | [h, m] =>
    match pyIntL h, pyIntL m with
    | some h2, some m2 => some (h2, m2)
    | _, _ => none
  | _ => none

/-- Time-ascending comparison of two ledger keys via their denotations. -/
def slotLe (a b : String) : Bool :=
  match slotDenote a, slotDenote b with
  | some x, some y => decide (x.1 < y.1 ∨ (x.1 = y.1 ∧ x.2 ≤ y.2))
  | _, _ => false

/-- The whole bot: one session dict per user id plus the shared `agenda`. -/
structure BotState where
  sessions : List (Nat × Session)
  agenda : Agenda
deriving DecidableEq, Repr

/-- The bot before any message: no sessions, empty ledger. -/
def BotState.initial : BotState := ⟨[], []⟩

/-- Fetch a user's `user_data`, lazily created empty (as the framework does). -/
def getSession (ss : List (Nat × Session)) (uid : Nat) : Session :=
  (ss.lookup uid).getD Session.empty

/-- Store a user's `user_data` back (dict update: replace in place or append). -/
def setSession : List (Nat × Session) → Nat → Session → List (Nat × Session)
  | [], uid, s => [(uid, s)]
  | (u, t) :: rest, uid, s =>
    if u = uid then (uid, s) :: rest else (u, t) :: setSession rest uid s

/-- Dispatch one inbound message from user `uid` through `handle_message`. -/
def stepBot (st : BotState) (uid : Nat) (msg saudacao : String) :
    Except Unit BotState :=
  match handle_message msg (getSession st.sessions uid) st.agenda saudacao with
  | Except.ok (s2, ag2, _) => Except.ok ⟨setSession st.sessions uid s2, ag2⟩
  | Except.error e => Except.error e

/-- Run a finite conversation: a list of (user id, message) pairs in order. -/
def runBot : List (Nat × String) → BotState → Except Unit BotState
  | [], st => Except.ok st
  | (uid, m) :: rest, st =>
    match stepBot st uid m "" with
    | Except.ok st2 => runBot rest st2
    | Except.error e => Except.error e

/-- The session states of one user reachable from a fresh session by
`handle_message` steps (against arbitrary ledgers and greetings; a step that
raises leaves `user_data` unchanged, so it adds no new state). -/
inductive ReachableSession : Session → Prop where
  | init : ReachableSession Session.empty
  | step {s s2 : Session} {msg saudacao : String} {a a2 : Agenda} {r : List String} :
      ReachableSession s →
      handle_message msg s a saudacao = Except.ok (s2, a2, r) →
      ReachableSession s2

/-! ### Association-list (dict) lemmas shared by the ledger proofs -/

theorem lookup_eq_none_iff {a : Agenda} {k : String} :
    a.lookup k = none ↔ k ∉ chaves a := by
  induction a with
  | nil => simp [chaves]
  | cons e t ih =>
    obtain ⟨k2, b2⟩ := e
    rw [List.lookup_cons]
    by_cases h : k = k2
    · subst h
      simp [chaves]
    · have hbeq : (k == k2) = false := by simp [h]
      simpa [hbeq, chaves, h] using ih

theorem chaves_filter_subset {a : Agenda} {p : String × Agendamento → Bool}
    {k : String} (h : k ∈ chaves (a.filter p)) : k ∈ chaves a := by
  simp only [chaves, List.mem_map] at h ⊢
  obtain ⟨e, he, hk⟩ := h
  exact ⟨e, (List.mem_filter.mp he).1, hk⟩

theorem lookup_filter_pos {a : Agenda} {p : String × Agendamento → Bool}
    {k : String} {b : Agendamento} (hl : a.lookup k = some b)
    (hp : p (k, b) = true) : (a.filter p).lookup k = some b := by
  induction a with
  | nil => simp at hl
  | cons e t ih =>
    obtain ⟨k2, b2⟩ := e
    rw [List.lookup_cons] at hl
    by_cases h : k = k2
    · subst h
      obtain rfl : b2 = b := by simpa using hl
      rw [List.filter_cons, if_pos hp, List.lookup_cons]
      simp
    · have hbeq : (k == k2) = false := by simp [h]
      rw [hbeq] at hl
      rw [List.filter_cons]
      split
      · rw [List.lookup_cons, hbeq]
        exact ih hl
      · exact ih hl

theorem lookup_filter_neg {a : Agenda} {p : String × Agendamento → Bool}
    {k : String} {b : Agendamento} (hnd : (chaves a).Nodup)
    (hl : a.lookup k = some b) (hp : p (k, b) = false) :
    (a.filter p).lookup k = none := by
  induction a with
  | nil => simp at hl
  | cons e t ih =>
    obtain ⟨k2, b2⟩ := e
    have hnd2 : k2 ∉ chaves t ∧ (chaves t).Nodup := by
      simpa [chaves, List.nodup_cons] using hnd
    rw [List.lookup_cons] at hl
    by_cases h : k = k2
    · subst h
      obtain rfl : b2 = b := by simpa using hl
      rw [List.filter_cons, if_neg (by simp [hp])]
      exact lookup_eq_none_iff.mpr (fun hm => hnd2.1 (chaves_filter_subset hm))
    · have hbeq : (k == k2) = false := by simp [h]
      rw [hbeq] at hl
      rw [List.filter_cons]
      split
      · rw [List.lookup_cons, hbeq]
        exact ih hnd2.2 hl
      · exact ih hnd2.2 hl

theorem lookup_append_of_some {a1 a2 : Agenda} {k : String} {b : Agendamento}
    (h : a1.lookup k = some b) : (a1 ++ a2).lookup k = some b := by
  induction a1 with
  | nil => simp at h
  | cons e t ih =>
    obtain ⟨k2, b2⟩ := e
    rw [List.lookup_cons] at h
    rw [List.cons_append, List.lookup_cons]
    cases hbeq : (k == k2) with
    | true => rw [hbeq] at h; exact h
    | false => rw [hbeq] at h; exact ih h

theorem lookup_append_of_none {a1 a2 : Agenda} {k : String}
    (h : a1.lookup k = none) : (a1 ++ a2).lookup k = a2.lookup k := by
  induction a1 with
  | nil => simp
  | cons e t ih =>
    obtain ⟨k2, b2⟩ := e
    rw [List.lookup_cons] at h
    rw [List.cons_append, List.lookup_cons]
    cases hbeq : (k == k2) with
    | true => rw [hbeq] at h; exact absurd h (by simp)
    | false => rw [hbeq] at h; exact ih h

/-! ### Characterization of `verificar_agendamento` and `removerCliente` -/

theorem verificar_of_isSome {horario cliente servico : String} {a : Agenda}
    (h : ((removerCliente cliente a).lookup horario).isSome = true) :
    verificar_agendamento horario cliente servico a =
      (false, removerCliente cliente a) := by
  simp [verificar_agendamento, h]

theorem verificar_of_none {horario cliente servico : String} {a : Agenda}
    (h : (removerCliente cliente a).lookup horario = none) :
    verificar_agendamento horario cliente servico a =
      (true, removerCliente cliente a ++
        [(horario, { cliente := cliente, servico := servico })]) := by
  simp [verificar_agendamento, h]

theorem lookup_remover_of_ne {a : Agenda} {k c : String} {b : Agendamento}
    (hl : a.lookup k = some b) (hb : b.cliente ≠ c) :
    (removerCliente c a).lookup k = some b :=
  lookup_filter_pos hl (by simp [hb])

theorem lookup_remover_of_eq {a : Agenda} {k c : String} {b : Agendamento}
    (hnd : (chaves a).Nodup) (hl : a.lookup k = some b) (hb : b.cliente = c) :
    (removerCliente c a).lookup k = none :=
  lookup_filter_neg hnd hl (by simp [hb])

theorem lookup_remover_of_none {a : Agenda} {k c : String}
    (h : a.lookup k = none) : (removerCliente c a).lookup k = none :=
  lookup_eq_none_iff.mpr (fun hm => lookup_eq_none_iff.mp h (chaves_filter_subset hm))

theorem remover_append_keep {x : Agenda} {s c2 : String} {e : Agendamento}
    (he : e.cliente ≠ c2) :
    removerCliente c2 (x ++ [(s, e)]) = removerCliente c2 x ++ [(s, e)] := by
  simp [removerCliente, List.filter_append, he]

/-! ### Claims about the ledger operation `verificar_agendamento` -/

/-- C4: conflict-path side effect of `tryBook` (`verificar_agendamento`).
If client `c` holds slot `s1` and slot `s2` is held by a different client,
then `verificar_agendamento s2 c v` returns `false` (CONFLICT), leaves the
other client's booking at `s2` untouched, yet `c`'s old booking at `s1` has
been removed: the old slot is freed even though the call failed. -/
theorem tryBook_conflict_frees_old_slot
    (a : Agenda) (s1 s2 c v : String) (b1 b2 : Agendamento)
    (hnd : (chaves a).Nodup)
    (h1 : a.lookup s1 = some b1) (hc1 : b1.cliente = c)
    (h2 : a.lookup s2 = some b2) (hc2 : b2.cliente ≠ c) :
    (verificar_agendamento s2 c v a).1 = false ∧
    (verificar_agendamento s2 c v a).2.lookup s2 = some b2 ∧
    (verificar_agendamento s2 c v a).2.lookup s1 = none := by
  have hl2 : (removerCliente c a).lookup s2 = some b2 := lookup_remover_of_ne h2 hc2
  have hl1 : (removerCliente c a).lookup s1 = none := lookup_remover_of_eq hnd h1 hc1
  rw [verificar_of_isSome (by simp [hl2])]
  exact ⟨rfl, hl2, hl1⟩

/-- Witness for C4 at a concrete ledger: maria holds 9:00, joao holds 10:00;
maria's attempt on 10:00 fails with CONFLICT, 10:00 still belongs to joao,
and maria's 9:00 has been silently freed. -/
theorem tryBook_conflict_frees_old_slot_witness :
    (chaves [("9:00", ⟨"maria", "1"⟩), ("10:00", ⟨"joao", "2"⟩)]).Nodup ∧
    ((verificar_agendamento "10:00" "maria" "1"
        [("9:00", ⟨"maria", "1"⟩), ("10:00", ⟨"joao", "2"⟩)]).1 = false ∧
      (verificar_agendamento "10:00" "maria" "1"
        [("9:00", ⟨"maria", "1"⟩), ("10:00", ⟨"joao", "2"⟩)]).2.lookup "10:00" =
          some ⟨"joao", "2"⟩ ∧
      (verificar_agendamento "10:00" "maria" "1"
        [("9:00", ⟨"maria", "1"⟩), ("10:00", ⟨"joao", "2"⟩)]).2.lookup "9:00" = none) :=
  ⟨by decide,
    tryBook_conflict_frees_old_slot _ "9:00" "10:00" "maria" "1" ⟨"maria", "1"⟩
      ⟨"joao", "2"⟩ (by decide) rfl rfl rfl (by decide)⟩

/-- C5 counterexample: as stated — over every pair of clients — the claim is
false: with the same client on both calls, two consecutive `tryBook` calls
for the same slot both return BOOKED (the second silently cancels the first
booking and re-inserts). -/
theorem tryBook_second_booked_same_client :
    (verificar_agendamento "10:00" "maria" "1" []).1 = true ∧
    (verificar_agendamento "10:00" "maria" "2"
      (verificar_agendamento "10:00" "maria" "1" []).2).1 = true := by
  constructor <;> rfl

/-- C5 amended: for distinct clients, if a `tryBook` for slot `s` returned
BOOKED, an immediately following `tryBook` for the same `s` by a different
client returns CONFLICT, whatever the starting ledger. -/
theorem tryBook_second_conflict_distinct_clients
    (a : Agenda) (s c1 c2 v1 v2 : String) (hne : c1 ≠ c2)
    (h1 : (verificar_agendamento s c1 v1 a).1 = true) :
    (verificar_agendamento s c2 v2 (verificar_agendamento s c1 v1 a).2).1 = false := by
  cases hcase : (removerCliente c1 a).lookup s with
  | some b =>
    rw [verificar_of_isSome (by simp [hcase])] at h1
    exact absurd h1 (by simp)
  | none =>
    rw [verificar_of_none hcase]
    have hkeep : removerCliente c2 (removerCliente c1 a ++
          [(s, { cliente := c1, servico := v1 })]) =
        removerCliente c2 (removerCliente c1 a) ++
          [(s, { cliente := c1, servico := v1 })] :=
      remover_append_keep hne
    have hnone2 : (removerCliente c2 (removerCliente c1 a)).lookup s = none :=
      lookup_remover_of_none hcase
    have hsome : ((removerCliente c2 (removerCliente c1 a ++
          [(s, { cliente := c1, servico := v1 })])).lookup s).isSome = true := by
      rw [hkeep, lookup_append_of_none hnone2, List.lookup_cons]
      simp
    rw [verificar_of_isSome hsome]

/-- Witness for C5's amended theorem: maria books 10:00 on an empty ledger,
then joao's attempt on 10:00 returns CONFLICT. -/
theorem tryBook_second_conflict_distinct_clients_witness :
    "maria" ≠ "joao" ∧
    (verificar_agendamento "10:00" "maria" "1" []).1 = true ∧
    (verificar_agendamento "10:00" "joao" "2"
      (verificar_agendamento "10:00" "maria" "1" []).2).1 = false :=
  ⟨by decide, rfl,
    tryBook_second_conflict_distinct_clients [] "10:00" "maria" "joao" "1" "2"
      (by decide) rfl⟩

/-- C6: same-client rebooking. If client `c` holds slot `s1` and slot `s2` is
absent from the ledger, `verificar_agendamento s2 c svc` returns BOOKED and
afterwards the ledger holds `c`'s booking at `s2` and nothing at `s1`. -/
theorem tryBook_rebook_moves_booking
    (a : Agenda) (s1 s2 c svc : String) (b : Agendamento)
    (hnd : (chaves a).Nodup)
    (h1 : a.lookup s1 = some b) (hb : b.cliente = c)
    (h2 : a.lookup s2 = none) :
    (verificar_agendamento s2 c svc a).1 = true ∧
    (verificar_agendamento s2 c svc a).2.lookup s2 =
      some { cliente := c, servico := svc } ∧
    (verificar_agendamento s2 c svc a).2.lookup s1 = none := by
  have hs1s2 : s1 ≠ s2 := by
    intro h
    rw [h, h2] at h1
    exact absurd h1 (by simp)
  have hf2 : (removerCliente c a).lookup s2 = none := lookup_remover_of_none h2
  have hf1 : (removerCliente c a).lookup s1 = none := lookup_remover_of_eq hnd h1 hb
  rw [verificar_of_none hf2]
  refine ⟨rfl, ?_, ?_⟩
  · rw [show ((true, removerCliente c a ++
        [(s2, { cliente := c, servico := svc })]) : Bool × Agenda).2 =
        removerCliente c a ++ [(s2, { cliente := c, servico := svc })] from rfl,
      lookup_append_of_none hf2, List.lookup_cons]
    simp
  · rw [show ((true, removerCliente c a ++
        [(s2, { cliente := c, servico := svc })]) : Bool × Agenda).2 =
        removerCliente c a ++ [(s2, { cliente := c, servico := svc })] from rfl,
      lookup_append_of_none hf1, List.lookup_cons]
    have hb12 : (s1 == s2) = false := by simpa using hs1s2
    simp [hb12]

/-- Witness for C6: maria moves her 9:00 booking to the free 14:00. -/
theorem tryBook_rebook_moves_booking_witness :
    (chaves [("9:00", ⟨"maria", "1"⟩)]).Nodup ∧
    ((verificar_agendamento "14:00" "maria" "3" [("9:00", ⟨"maria", "1"⟩)]).1 = true ∧
      (verificar_agendamento "14:00" "maria" "3"
        [("9:00", ⟨"maria", "1"⟩)]).2.lookup "14:00" = some ⟨"maria", "3"⟩ ∧
      (verificar_agendamento "14:00" "maria" "3"
        [("9:00", ⟨"maria", "1"⟩)]).2.lookup "9:00" = none) :=
  ⟨by decide,
    tryBook_rebook_moves_booking _ "9:00" "14:00" "maria" "3" ⟨"maria", "1"⟩
      (by decide) rfl rfl rfl⟩

/-! ### Claims about the normalizer `formatar_horario` -/

/-- C2 fails on the code: the bare-hour branch does not zero-pad, so the
accepted inputs "9" and "09:00", which denote the same (hour, minute) =
(9, 0), normalize to the two different ledger keys "9:00" and "09:00". -/
theorem normalizer_not_canonical :
    formatar_horario "9" = Except.ok (some "9:00") ∧
    formatar_horario "9:00" = Except.ok (some "09:00") ∧
    formatar_horario "09:00" = Except.ok (some "09:00") ∧
    slotDenote "9:00" = some (9, 0) ∧
    slotDenote "09:00" = some (9, 0) ∧
    "9:00" ≠ "09:00" :=
  ⟨rfl, rfl, rfl, rfl, rfl, by decide⟩

/-- C3 fails on the code: the colon branch accepts `9 <= hora <= 17` with any
`minutos < 60`, so "17:30" — past the 17:00 closing boundary stated by the
bot's own prompts — is returned as a valid slot instead of INVALID. -/
theorem normalizer_accepts_after_closing :
    formatar_horario "17:30" = Except.ok (some "17:30") ∧
    (some "17:30" : Option String) ≠ none ∧
    slotDenote "17:30" = some (17, 30) :=
  ⟨rfl, by decide, rfl⟩

/-- C9 fails on the code: "²" passes `isdigit` but `int` raises `ValueError`,
so `formatar_horario "²"` raises instead of returning INVALID. -/
theorem normalizer_raises_on_superscript :
    pyIsdigit "²" = true ∧ pyInt "²" = none ∧
    formatar_horario "²" = Except.error () :=
  ⟨rfl, rfl, rfl⟩

/-! ### Claim C1: the no-double-booking invariant across full conversations -/

/-- C1 fails on the code: after the eight-message conversation in which user 0
books "9" and user 1 books "09:00", the ledger holds the two distinct keys
"9:00" and "09:00", both denoting the TimeSlot (9, 0) — two bookings for the
same real time coexist. -/
theorem double_booking_same_timeslot :
    (runBot [(0, "agendar"), (0, "ana"), (0, "1"), (0, "9"),
             (1, "agendar"), (1, "bia"), (1, "1"), (1, "09:00")]
        BotState.initial).map BotState.agenda =
      Except.ok [("9:00", { cliente := "ana", servico := "1" }),
                 ("09:00", { cliente := "bia", servico := "1" })] ∧
    slotDenote "9:00" = some (9, 0) ∧
    slotDenote "09:00" = some (9, 0) ∧
    "9:00" ≠ "09:00" :=
  ⟨rfl, rfl, rfl, by decide⟩

/-! ### Claim C7: the AWAITING_NAME stage -/

/-- C7 counterexample: in stage `'nome'`, the input "agendar" is intercepted
by the top-priority `if message_text == "agendar"` branch: it is not stored
as the client's name and the stage does not advance to `'servico'`. -/
theorem awaiting_name_agendar_not_stored :
    handle_message "agendar" ⟨some "nome", none, none⟩ [] "" =
      Except.ok (⟨some "nome", none, none⟩, [], ["Qual é o seu nome?"]) ∧
    (some "nome" : Option String) ≠ some "servico" ∧
    (none : Option String) ≠ some "agendar" :=
  ⟨rfl, by decide, by decide⟩

/-- C7 amended: in stage `'nome'`, every input other than the two globally
intercepted control words "agendar" and "obrigado" — including
"ver agendamentos" — is stored as the session's `nome` and the stage
advances to `'servico'`. -/
theorem awaiting_name_stores_text
    (ud : Session) (ag : Agenda) (saudacao message_text : String)
    (hst : ud.stage = some "nome")
    (h1 : message_text ≠ "agendar") (h2 : message_text ≠ "obrigado")
    (_h3 : message_text ≠ "") :
    handle_message message_text ud ag saudacao =
      Except.ok ({ ud with nome := some message_text, stage := some "servico" }, ag,
        ["Escolha o número do serviço desejado:\n1. Corte de cabelo\n2. Barba\n3. Corte e Barba"]) := by
  simp [handle_message, h1, h2, hst]

/-- Witness for C7's amended theorem: in stage `'nome'`, the control word
"ver agendamentos" is itself stored as the client's name. -/
theorem awaiting_name_stores_text_witness :
    handle_message "ver agendamentos" ⟨some "nome", none, none⟩ [] "" =
      Except.ok (⟨some "servico", some "ver agendamentos", none⟩, [],
        ["Escolha o número do serviço desejado:\n1. Corte de cabelo\n2. Barba\n3. Corte e Barba"]) :=
  awaiting_name_stores_text ⟨some "nome", none, none⟩ [] "" "ver agendamentos"
    rfl (by decide) (by decide) (by decide)

/-! ### Claim C8: order of the "ver agendamentos" listing -/

theorem linhaExc_eq {e : String × Agendamento} {l : String}
    (h : linhaExc e = Except.ok l) : l = linha e := by
  unfold linhaExc at h
  cases hs : servicos.lookup e.2.servico with
  | none => rw [hs] at h; exact absurd h (by simp)
  | some n =>
    rw [hs] at h
    simp only [Except.ok.injEq] at h
    simp [linha, hs, h]

theorem linhas_eq_map {a : Agenda} {ls : List String}
    (h : linhas a = Except.ok ls) : ls = a.map linha := by
  induction a generalizing ls with
  | nil =>
    simp only [linhas, Except.ok.injEq] at h
    simp [h.symm]
  | cons e t ih =>
    unfold linhas at h
    cases he : linhaExc e with
    | error u => rw [he] at h; exact absurd h (by simp)
    | ok l =>
      rw [he] at h
      cases ht : linhas t with
      | error u => rw [ht] at h; exact absurd h (by simp)
      | ok ls2 =>
        rw [ht] at h
        simp only [Except.ok.injEq] at h
        rw [← h, List.map_cons, ← ih ht, linhaExc_eq he]

/-- C8 amended: the listing emitted for "ver agendamentos" enumerates the
bookings in ledger (dict insertion) order — one line per entry, in the order
the entries sit in `agenda` — not sorted by TimeSlot; the session and the
ledger are left unchanged. -/
theorem ver_agendamentos_insertion_order
    (ud : Session) (ag : Agenda) (saudacao : String) (ls : List String)
    (h1 : ud.stage ≠ some "nome") (h2 : ud.stage ≠ some "servico")
    (h3 : ud.stage ≠ some "horario")
    (hne : ag ≠ []) (hls : linhas ag = Except.ok ls) :
    handle_message "ver agendamentos" ud ag saudacao =
      Except.ok (ud, ag,
        ["Agendamentos do dia:\n" ++ String.intercalate "\n" (ag.map linha)]) := by
  have hmap : ls = ag.map linha := linhas_eq_map hls
  have hempty : ag.isEmpty = false := by
    cases ag with
    | nil => exact absurd rfl hne
    | cons e t => rfl
  have d1 : ("ver agendamentos" : String) ≠ "agendar" := by decide
  have d2 : ("ver agendamentos" : String) ≠ "obrigado" := by decide
  simp [handle_message, d1, d2, h1, h2, h3, hempty, hls, hmap]

/-- Witness for C8's amended theorem on a two-entry ledger. -/
theorem ver_agendamentos_insertion_order_witness :
    handle_message "ver agendamentos" Session.empty
        [("11:00", ⟨"bia", "1"⟩), ("10:00", ⟨"ana", "1"⟩)] "" =
      Except.ok (Session.empty,
        [("11:00", ⟨"bia", "1"⟩), ("10:00", ⟨"ana", "1"⟩)],
        ["Agendamentos do dia:\n" ++ String.intercalate "\n"
          (([("11:00", ⟨"bia", "1"⟩), ("10:00", ⟨"ana", "1"⟩)] : Agenda).map linha)]) :=
  ver_agendamentos_insertion_order Session.empty
    [("11:00", ⟨"bia", "1"⟩), ("10:00", ⟨"ana", "1"⟩)] ""
    ["11:00: bia - Corte de cabelo", "10:00: ana - Corte de cabelo"]
    (by decide) (by decide) (by decide) (by decide) rfl

/-- C8 counterexample: the ledger reached by booking 11:00 (bia) and then
10:00 (ana) lists 11:00 before 10:00 — insertion order, not TimeSlot
ascending. -/
theorem ver_agendamentos_not_sorted :
    (verificar_agendamento "10:00" "ana" "1"
        (verificar_agendamento "11:00" "bia" "1" []).2).2 =
      [("11:00", { cliente := "bia", servico := "1" }),
       ("10:00", { cliente := "ana", servico := "1" })] ∧
    handle_message "ver agendamentos" Session.empty
        [("11:00", { cliente := "bia", servico := "1" }),
         ("10:00", { cliente := "ana", servico := "1" })] "" =
      Except.ok (Session.empty,
        [("11:00", { cliente := "bia", servico := "1" }),
         ("10:00", { cliente := "ana", servico := "1" })],
        ["Agendamentos do dia:\n11:00: bia - Corte de cabelo\n10:00: ana - Corte de cabelo"]) ∧
    slotLe "11:00" "10:00" = false :=
  ⟨rfl, rfl, rfl⟩

/-! ### Claim C10: reachable sessions in stage 'horario' have nome and servico -/

/-- The inductive session invariant: entering stage `'servico'` requires a
stored name, and entering stage `'horario'` requires both a stored name and
a stored service code. -/
def SessInv (s : Session) : Prop :=
  (s.stage = some "servico" → s.nome.isSome = true) ∧
  (s.stage = some "horario" → s.nome.isSome = true ∧ s.servico.isSome = true)

theorem sessInv_empty : SessInv Session.empty := by
  constructor <;> intro h <;> simp [Session.empty] at h

theorem sessInv_step {message_text saudacao : String} {s s2 : Session}
    {a a2 : Agenda} {r : List String}
    (hinv : SessInv s)
    (hstep : handle_message message_text s a saudacao = Except.ok (s2, a2, r)) :
    SessInv s2 := by
  by_cases h1 : message_text = "agendar"
  · simp [handle_message, h1] at hstep
    obtain ⟨hs, -, -⟩ := hstep
    subst hs
    exact ⟨by simp, by simp⟩
  by_cases h2 : message_text = "obrigado"
  · simp [handle_message, h1, h2] at hstep
    obtain ⟨hs, -, -⟩ := hstep
    subst hs
    exact ⟨by simp, by simp⟩
  by_cases h3 : s.stage = some "nome"
  · simp [handle_message, h1, h2, h3] at hstep
    obtain ⟨hs, -, -⟩ := hstep
    subst hs
    exact ⟨by simp, by simp⟩
  by_cases h4 : s.stage = some "servico"
  · by_cases h4m : message_text ∈ (["1", "2", "3"] : List String)
    · simp [handle_message, h1, h2, h4, h4m] at hstep
      obtain ⟨hs, -, -⟩ := hstep
      subst hs
      exact ⟨by simp, fun _ => ⟨by simpa using hinv.1 h4, by simp⟩⟩
    · simp [handle_message, h1, h2, h4, h4m] at hstep
      obtain ⟨hs, -, -⟩ := hstep
      subst hs
      exact hinv
  by_cases h5 : s.stage = some "horario"
  · cases hf : formatar_horario message_text with
    | error u => simp [handle_message, h1, h2, h5, hf] at hstep
    | ok o =>
      cases o with
      | none =>
        simp [handle_message, h1, h2, h5, hf] at hstep
        obtain ⟨hs, -, -⟩ := hstep
        subst hs
        exact hinv
      | some horario =>
        cases hn : s.nome with
        | none => simp [handle_message, h1, h2, h5, hf, hn] at hstep
        | some cliente =>
          cases hsv : s.servico with
          | none => simp [handle_message, h1, h2, h5, hf, hn, hsv] at hstep
          | some servico =>
            by_cases hb : (verificar_agendamento horario cliente servico a).1 = true
            · simp [handle_message, h1, h2, h5, hf, hn, hsv, hb] at hstep
              obtain ⟨hs, -, -⟩ := hstep
              subst hs
              exact sessInv_empty
            · simp [handle_message, h1, h2, h5, hf, hn, hsv, hb] at hstep
              obtain ⟨hs, -, -⟩ := hstep
              subst hs
              exact hinv
  by_cases h6 : message_text = "ver agendamentos"
  · cases hie : a.isEmpty with
    | true =>
      simp [handle_message, h1, h2, h3, h4, h5, h6, hie] at hstep
      obtain ⟨hs, -, -⟩ := hstep
      subst hs
      exact hinv
    | false =>
      cases hl : linhas a with
      | error u => simp [handle_message, h1, h2, h3, h4, h5, h6, hie, hl] at hstep
      | ok ls =>
        simp [handle_message, h1, h2, h3, h4, h5, h6, hie, hl] at hstep
        obtain ⟨hs, -, -⟩ := hstep
        subst hs
        exact hinv
  by_cases h7 : s.stage = some "finalizar"
  · by_cases h7s : message_text = "sim"
    · simp [handle_message, h1, h2, h6, h7, h7s] at hstep
      obtain ⟨hs, -, -⟩ := hstep
      subst hs
      exact ⟨by simp, by simp⟩
    · simp [handle_message, h1, h2, h6, h7, h7s] at hstep
      obtain ⟨hs, -, -⟩ := hstep
      subst hs
      exact sessInv_empty
  by_cases h8 : s.stage = some "opcao"
  · by_cases h81 : message_text = "1"
    · simp [handle_message, h1, h2, h6, h8, h81] at hstep
      obtain ⟨hs, -, -⟩ := hstep
      subst hs
      exact ⟨by simp, by simp⟩
    by_cases h82 : message_text = "2"
    · simp [handle_message, h1, h2, h6, h8, h81, h82] at hstep
      obtain ⟨hs, -, -⟩ := hstep
      subst hs
      exact sessInv_empty
    by_cases h83 : message_text = "3"
    · simp [handle_message, h1, h2, h6, h8, h81, h82, h83] at hstep
      obtain ⟨hs, -, -⟩ := hstep
      subst hs
      exact sessInv_empty
    · simp [handle_message, h1, h2, h6, h8, h81, h82, h83] at hstep
      obtain ⟨hs, -, -⟩ := hstep
      subst hs
      exact hinv
  · simp [handle_message, h1, h2, h3, h4, h5, h6, h7, h8] at hstep
    obtain ⟨hs, -, -⟩ := hstep
    subst hs
    exact hinv

theorem reachable_sessInv {s : Session} (h : ReachableSession s) : SessInv s := by
  induction h with
  | init => exact sessInv_empty
  | step hr hstep ih => exact sessInv_step ih hstep

/-- C10: in every session reachable from a fresh session by `handle_message`
steps, stage `'horario'` implies both `nome` and `servico` are present, so
the unguarded `user_data['nome']` / `user_data['servico']` reads in the
booking branch cannot raise. -/
theorem horario_stage_has_nome_servico (s : Session) (h : ReachableSession s)
    (hst : s.stage = some "horario") :
    s.nome.isSome = true ∧ s.servico.isSome = true :=
  (reachable_sessInv h).2 hst

/-- Witness for C10: the session reached by "agendar", "maria", "1" is in
stage `'horario'` and indeed carries both fields. -/
theorem horario_stage_has_nome_servico_witness :
    (⟨some "horario", some "maria", some "1"⟩ : Session).nome.isSome = true ∧
    (⟨some "horario", some "maria", some "1"⟩ : Session).servico.isSome = true :=
  horario_stage_has_nome_servico ⟨some "horario", some "maria", some "1"⟩
    (ReachableSession.step
      (ReachableSession.step
        (ReachableSession.step ReachableSession.init
          (show handle_message "agendar" Session.empty [] "" =
              Except.ok (⟨some "nome", none, none⟩, [], ["Qual é o seu nome?"]) from rfl))
        (show handle_message "maria" ⟨some "nome", none, none⟩ [] "" =
            Except.ok (⟨some "servico", some "maria", none⟩, [],
              ["Escolha o número do serviço desejado:\n1. Corte de cabelo\n2. Barba\n3. Corte e Barba"])
          from rfl))
      (show handle_message "1" ⟨some "servico", some "maria", none⟩ [] "" =
          Except.ok (⟨some "horario", some "maria", some "1"⟩, [],
            ["Digite o horário entre as 09:00 até as 17:00"])
        from rfl))
    rfl

end Bot
